import Mathlib

/-!
Verification of the workflow scripts in Part-3 of this repository.

Monetary amounts (Python floats used for exact-looking arithmetic) are
modelled as rationals; Python dictionaries returned by the utility
functions are modelled as structures with one field per key; the
filesystem visible to a workflow run is modelled as two directory maps
(output and archive), one boolean per file name.
-/

namespace InvoiceUtils

/-- A single invoice record, from `InvoiceData` in invoice_utils.py. -/
structure InvoiceData where
  invoice_id : String
  client_name : String
  client_email : String
  is_preferred : Bool
  item_description : String
  quantity : Nat
  unit_price : ℚ
  date : String
deriving DecidableEq, Repr

/-- `InvoiceData.subtotal`: quantity * unit_price. -/
def InvoiceData.subtotal (inv : InvoiceData) : ℚ :=
  (inv.quantity : ℚ) * inv.unit_price

/-- Configuration values, from `InvoiceConfig` in invoice_utils.py
(environment lookups modelled as the structure fields themselves). -/
structure InvoiceConfig where
  tax_rate : ℚ
  high_value_threshold : ℚ
  high_value_discount : ℚ
  preferred_client_discount : ℚ
  company_name : String
  company_address : String
deriving DecidableEq, Repr

/-- The default configuration used when no environment variable is set. -/
def defaultConfig : InvoiceConfig :=
  { tax_rate := 1/10
    high_value_threshold := 5000
    high_value_discount := 1/20
    preferred_client_discount := 3/100
    company_name := "TechServices Inc."
    company_address := "123 Business St, Tech City, TC 12345" }

/-- The dictionary returned by `calculate_invoice_totals`, one field per key. -/
structure InvoiceTotals where
  subtotal : ℚ
  high_value_discount : ℚ
  preferred_discount : ℚ
  total_discount : ℚ
  amount_after_discount : ℚ
  tax : ℚ
  total : ℚ
deriving DecidableEq, Repr

/-- `calculate_invoice_totals` from invoice_utils.py. -/
def calculate_invoice_totals (invoice : InvoiceData) (config : InvoiceConfig) :
    InvoiceTotals :=
  let subtotal := invoice.subtotal
  let high_value_discount :=
    if subtotal ≥ config.high_value_threshold
    then subtotal * config.high_value_discount else 0
  let preferred_discount :=
    if invoice.is_preferred
    then subtotal * config.preferred_client_discount else 0
  let total_discount := high_value_discount + preferred_discount
  let amount_after_discount := subtotal - total_discount
  let tax := amount_after_discount * config.tax_rate
  let total := amount_after_discount + tax
  { subtotal := subtotal
    high_value_discount := high_value_discount
    preferred_discount := preferred_discount
    total_discount := total_discount
    amount_after_discount := amount_after_discount
    tax := tax
    total := total }

/-- The filesystem state a workflow run can observe: the set of file names
present in the output directory and in the archive directory. -/
structure WorkflowDirs where
  output : String → Bool
  archive : String → Bool

/-- `archive_old_invoice` from invoice_utils.py: if the output file exists,
move it to the archive directory under a timestamped name and return true;
otherwise leave the filesystem alone and return false. -/
def archive_old_invoice (invoice_id : String) (fs : WorkflowDirs)
    (timestamp : String) : WorkflowDirs × Bool :=
  let filename := invoice_id ++ ".txt"
  if fs.output filename then
    let archive_filename := invoice_id ++ "_" ++ timestamp ++ ".txt"
    ({ output := fun f => if f = filename then false else fs.output f
       archive := fun f => if f = archive_filename then true else fs.archive f },
     true)
  else
    (fs, false)

end InvoiceUtils

namespace Engine

/-- One case of a switch-case edge group: `Case(condition=..., target=...)`
as constructed in new_18_branching_workflow.py. -/
structure Case (α β : Type) where
  condition : α → Bool
  target : β

/-- Modelled from the spec: the switch-case evaluation of the
agent_framework engine is not under src/ (only the `Case`/`Default` group
declarations are).  Spec 4.3: predicates evaluated in declaration order
against the outgoing message; first true predicate selects the single
target; if none is true, the default target is used. -/
def switchTarget {α β : Type} (cases : List (Case α β)) (dflt : β) (msg : α) : β :=
  match cases with
  | [] => dflt
  | c :: rest => if c.condition msg then c.target else switchTarget rest dflt msg

/-- Which case edges of the group fire for a message: the first case whose
predicate is true fires, every case after it does not. -/
def caseFlags {α β : Type} (cases : List (Case α β)) (msg : α) : List Bool :=
  match cases with
  | [] => []
  | c :: rest =>
      if c.condition msg then true :: rest.map (fun _ => false)
      else false :: caseFlags rest msg

/-- The per-edge firing flags of a switch-case group (spec 4.3): one flag
per case edge in declaration order, then the flag of the default edge,
which fires exactly when no case predicate is true. -/
def switchFired {α β : Type} (cases : List (Case α β)) (msg : α) : List Bool :=
  caseFlags cases msg ++ [cases.all (fun c => !(c.condition msg))]

/-- One upstream message addressed to a fan-in merge node of some run. -/
structure Delivery (μ : Type) where
  runId : String
  mergeNode : String
  upstream : String
  payload : μ
deriving DecidableEq

/-- Modelled from the spec: the engine's FanInBarrier is not under src/
(the source's ResultsMerger keeps one shared instance).  Spec 3:
buffered state keyed by (run id, merge-node id); `required` holds, per
merge node, the set of upstream node ids that must deliver before the
merge handler fires; released exactly once per run, then reset. -/
structure FanInBarrier (μ : Type) where
  required : String → List String
  buffers : String × String → List (String × μ)

/-- A fresh barrier: every (run id, merge node) buffer is empty. -/
def FanInBarrier.init {μ : Type} (required : String → List String) :
    FanInBarrier μ :=
  { required := required, buffers := fun _ => [] }

/-- A merge firing: the (run id, merge node) key that was released and the
buffered upstream messages consumed by the merge handler. -/
structure FireEvent (μ : Type) where
  key : String × String
  inputs : List (String × μ)
deriving DecidableEq

/-- Modelled from the spec (4.3 fan-in barrier): buffer the arriving
message under the message's own (run id, merge node) key; when every
required upstream of that merge node is present in that key's buffer,
fire once with exactly that buffer and reset it. -/
def FanInBarrier.deliver {μ : Type} (b : FanInBarrier μ) (d : Delivery μ) :
    FanInBarrier μ × Option (FireEvent μ) :=
  let key := (d.runId, d.mergeNode)
  let buf := b.buffers key ++ [(d.upstream, d.payload)]
  if (b.required d.mergeNode).all (fun u => (buf.map Prod.fst).contains u) then
    ({ b with buffers := fun k => if k = key then [] else b.buffers k },
     some { key := key, inputs := buf })
  else
    ({ b with buffers := fun k => if k = key then buf else b.buffers k },
     none)

/-- Deliver a sequence of upstream messages (an arbitrary interleaving of
any number of runs) to the barrier, collecting the merge firings. -/
def runBarrier {μ : Type} (b : FanInBarrier μ) :
    List (Delivery μ) → FanInBarrier μ × List (FireEvent μ)
  | [] => (b, [])
  | d :: rest =>
      let s := b.deliver d
      let n := runBarrier s.1 rest
      (n.1, s.2.toList ++ n.2)

/-- The deliveries of a trace addressed to one (run id, merge node) key. -/
def keyTrace {μ : Type} (tr : List (Delivery μ)) (k : String × String) :
    List (Delivery μ) :=
  tr.filter (fun d => decide ((d.runId, d.mergeNode) = k))

/-- The firings of a run for one (run id, merge node) key. -/
def keyFires {μ : Type} (evs : List (FireEvent μ)) (k : String × String) :
    List (FireEvent μ) :=
  evs.filter (fun e => decide (e.key = k))

end Engine

namespace Branching

open InvoiceUtils Engine

/-- `analyze_invoice_routing` from new_18_branching_workflow.py: file
existence check first, then the high-value check, then the preferred-client
check, else standard.  (Numeric interpolation inside the reason text is
elided; the decision type strings are exact.) -/
def analyze_invoice_routing (fs : WorkflowDirs) (invoice : InvoiceData)
    (config : InvoiceConfig) : String × String :=
  let totals := calculate_invoice_totals invoice config
  if fs.output (invoice.invoice_id ++ ".txt") then
    ("archive_needed", "Existing file found - needs archiving")
  else if totals.subtotal ≥ config.high_value_threshold then
    ("high_value", "High value - applying discount")
  else if invoice.is_preferred then
    ("preferred", "Preferred client - applying loyalty discount")
  else
    ("standard", "Normal processing")

/-- `InvoiceDecision` from new_18_branching_workflow.py. -/
structure InvoiceDecision where
  invoice : InvoiceData
  config : InvoiceConfig
  totals : InvoiceTotals
  decision_type : String
  reason : String

/-- `is_archive_needed` from new_18_branching_workflow.py. -/
def is_archive_needed (d : InvoiceDecision) : Bool :=
  d.decision_type == "archive_needed"

/-- `is_high_value` from new_18_branching_workflow.py. -/
def is_high_value (d : InvoiceDecision) : Bool :=
  d.decision_type == "high_value"

/-- `is_preferred` from new_18_branching_workflow.py. -/
def is_preferred (d : InvoiceDecision) : Bool :=
  d.decision_type == "preferred"

/-- The executors of the branching workflow, by their ids in `run_workflow`. -/
inductive BranchTarget
  | archive_handler | high_value_handler | preferred_handler
  | standard_handler | finalizer
deriving DecidableEq, Repr

/-- The decision built by `InvoiceLoader.load_and_analyze` for the selected
invoice (interactive selection modelled by passing the invoice directly). -/
def loaderDecision (fs : WorkflowDirs) (inv : InvoiceData)
    (cfg : InvoiceConfig) : InvoiceDecision :=
  let a := analyze_invoice_routing fs inv cfg
  { invoice := inv
    config := cfg
    totals := calculate_invoice_totals inv cfg
    decision_type := a.1
    reason := a.2 }

/-- The switch-case group on the loader in `run_workflow` (declaration
order: archive_needed, high_value, preferred; default standard). -/
def loader_cases : List (Case InvoiceDecision BranchTarget) :=
  [⟨is_archive_needed, .archive_handler⟩,
   ⟨is_high_value, .high_value_handler⟩,
   ⟨is_preferred, .preferred_handler⟩]

/-- The default target of the loader group. -/
def loader_default : BranchTarget := .standard_handler

/-- The second switch-case group, on the archive handler, in `run_workflow`
(cases high_value, preferred; default standard; no archive case). -/
def archive_cases : List (Case InvoiceDecision BranchTarget) :=
  [⟨is_high_value, .high_value_handler⟩,
   ⟨is_preferred, .preferred_handler⟩]

/-- The default target of the archive-handler group. -/
def archive_default : BranchTarget := .standard_handler

/-- `ArchiveHandler.archive_old` from new_18_branching_workflow.py:
archive the existing output file, then re-run `analyze_invoice_routing`
and overwrite the decision type and reason on the decision it forwards. -/
def archive_old (d : InvoiceDecision) (fs : WorkflowDirs)
    (timestamp : String) : WorkflowDirs × InvoiceDecision :=
  let fs' := (archive_old_invoice d.invoice.invoice_id fs timestamp).1
  let a := analyze_invoice_routing fs' d.invoice d.config
  (fs', { d with decision_type := a.1, reason := a.2 })

end Branching

namespace Concurrent

open InvoiceUtils

/-- `InvoiceWithConfig` from new_17_concurrent_workflow.py. -/
structure InvoiceWithConfig where
  invoice : InvoiceData
  config : InvoiceConfig
deriving DecidableEq, Repr

/-- The client_info dictionary built by `ClientInfoPreparer.prepare`. -/
structure ClientInfo where
  name : String
  email : String
  is_preferred : Bool
  status : String
  greeting : String
  account_manager : String
  last_order_date : String
deriving DecidableEq, Repr

/-- `ClientInfoPreparer.prepare` from new_17_concurrent_workflow.py
(pure part; the 0.5s sleep is scheduling, not data). -/
def prepare_client_info (inv : InvoiceData) : ClientInfo :=
  { name := inv.client_name
    email := inv.client_email
    is_preferred := inv.is_preferred
    status := if inv.is_preferred then "VIP" else "Standard"
    greeting := "Dear " ++ inv.client_name ++ ","
    account_manager := "AM-" ++ (inv.client_name.take 3).toUpper
    last_order_date := if inv.is_preferred then "2024-12-01" else "2024-11-15" }

/-- The credit_check dictionary built by `CreditChecker.check_credit`. -/
structure CreditCheck where
  credit_score : Nat
  credit_limit : ℚ
  risk_level : String
  approved : Bool
  invoice_amount : ℚ
  available_credit : ℚ
  check_timestamp : String
deriving DecidableEq, Repr

/-- `CreditChecker.check_credit` from new_17_concurrent_workflow.py
(pure part; the 0.8s sleep is scheduling, not data). -/
def check_credit (inv : InvoiceData) : CreditCheck :=
  let invoice_amount := inv.subtotal
  let scored : Nat × ℚ × String :=
    if inv.is_preferred then (850, 50000, "LOW")
    else if invoice_amount > 5000 then (720, 25000, "MEDIUM")
    else (650, 10000, "MEDIUM")
  let approved := invoice_amount ≤ scored.2.1
  { credit_score := scored.1
    credit_limit := scored.2.1
    risk_level := scored.2.2
    approved := approved
    invoice_amount := invoice_amount
    available_credit := if approved then scored.2.1 - invoice_amount else 0
    check_timestamp := "2024-12-09T10:30:00Z" }

/-- `TotalsResult` from new_17_concurrent_workflow.py. -/
structure TotalsResult where
  invoice_id : String
  totals : InvoiceTotals
deriving DecidableEq, Repr

/-- `ClientResult` from new_17_concurrent_workflow.py. -/
structure ClientResult where
  invoice_id : String
  client_info : ClientInfo
deriving DecidableEq, Repr

/-- `CreditResult` from new_17_concurrent_workflow.py. -/
structure CreditResult where
  invoice_id : String
  credit_check : CreditCheck
deriving DecidableEq, Repr

/-- `MergedResult` from new_17_concurrent_workflow.py. -/
structure MergedResult where
  invoice : InvoiceData
  config : InvoiceConfig
  totals : InvoiceTotals
  client_info : ClientInfo
  credit_check : CreditCheck
deriving DecidableEq, Repr

/-- The payload types the merger node accepts, one per `@handler` of
`ResultsMerger` (merge_totals, merge_client, merge_credit, store_original). -/
inductive MergeMsg
  | totals (r : TotalsResult)
  | client (r : ClientResult)
  | credit (r : CreditResult)
  | original (d : InvoiceWithConfig)
deriving DecidableEq, Repr

/-- The mutable fields of `ResultsMerger`, all initialised to None in
`ResultsMerger.__init__`. -/
structure MergerState where
  totals_result : Option TotalsResult
  client_result : Option ClientResult
  credit_result : Option CreditResult
  original_data : Option InvoiceWithConfig
deriving DecidableEq, Repr

/-- The initial (and reset) merger state: all four fields None. -/
def MergerState.empty : MergerState := ⟨none, none, none, none⟩

/-- `ResultsMerger._check_and_merge`: when all four fields are set
(dataclass instances are truthy, so the Python condition is a None test),
emit the merged result and reset all four fields to None; otherwise
change nothing and emit nothing. -/
def check_and_merge (s : MergerState) : MergerState × Option MergedResult :=
  match s.totals_result, s.client_result, s.credit_result, s.original_data with
  | some t, some c, some cr, some o =>
      (MergerState.empty,
       some { invoice := o.invoice
              config := o.config
              totals := t.totals
              client_info := c.client_info
              credit_check := cr.credit_check })
  | _, _, _, _ => (s, none)

/-- One handler invocation of `ResultsMerger` — merge_totals, merge_client,
merge_credit or store_original, selected by payload type: store the payload
in its field, then run `_check_and_merge`. -/
def receive (s : MergerState) (m : MergeMsg) : MergerState × Option MergedResult :=
  match m with
  | .totals r => check_and_merge { s with totals_result := some r }
  | .client r => check_and_merge { s with client_result := some r }
  | .credit r => check_and_merge { s with credit_result := some r }
  | .original d => check_and_merge { s with original_data := some d }

/-- Deliver a sequence of messages to the merger, collecting the emitted
merged results in delivery order. -/
def runMerger (s : MergerState) : List MergeMsg → MergerState × List MergedResult
  | [] => (s, [])
  | m :: rest =>
      let step := receive s m
      let next := runMerger step.1 rest
      (next.1, step.2.toList ++ next.2)

/-- The four messages one run of the concurrent workflow delivers to the
merger node: the three parallel task results plus the original dispatched
data (the fan-out in `run_workflow` also targets the merger). -/
def runMessages (t : TotalsResult) (c : ClientResult) (cr : CreditResult)
    (o : InvoiceWithConfig) : List MergeMsg :=
  [.totals t, .client c, .credit cr, .original o]

/-- The merged result `_check_and_merge` builds from the four upstream
values. -/
def mergedOf (t : TotalsResult) (c : ClientResult) (cr : CreditResult)
    (o : InvoiceWithConfig) : MergedResult :=
  { invoice := o.invoice
    config := o.config
    totals := t.totals
    client_info := c.client_info
    credit_check := cr.credit_check }

/-- The module-global mutable state of new_17_concurrent_workflow.py
(new_16_sequential_workflow.py and new_18_branching_workflow.py declare
the same global): `selected_invoice_id = None` at module scope. -/
structure ModuleGlobals where
  selected_invoice_id : Option String
deriving DecidableEq, Repr

/-- `Dispatcher.dispatch` from new_17_concurrent_workflow.py: the handler
declares `global selected_invoice_id` and assigns the show_menu result to
it, looks the selected invoice up by that id, and sends an
`InvoiceWithConfig` message.  The interactive menu choice is modelled as
the chosen invoice id; the lookup (`next(...)`, which raises when the id
is absent) is modelled with `find?`. -/
def dispatch (_g : ModuleGlobals) (all_invoices : List InvoiceData)
    (config : InvoiceConfig) (menu_choice : String) :
    ModuleGlobals × Option InvoiceWithConfig :=
  let g' : ModuleGlobals := { selected_invoice_id := some menu_choice }
  let selected := all_invoices.find? (fun inv => inv.invoice_id == menu_choice)
  (g', selected.map (fun inv => { invoice := inv, config := config }))

end Concurrent

namespace Interactive

open InvoiceUtils

/-- `TaxConfirmationRequest` from new_19_interactive_checkpointing.py. -/
structure TaxConfirmationRequest where
  invoice_id : String
  question : String
  current_value : ℚ
  options : String
deriving DecidableEq, Repr

/-- `DiscountConfirmationRequest` from new_19_interactive_checkpointing.py. -/
structure DiscountConfirmationRequest where
  invoice_id : String
  question : String
  current_value : ℚ
  options : String
deriving DecidableEq, Repr

/-- `InvoiceState` from new_19_interactive_checkpointing.py. -/
structure InvoiceState where
  invoice_id : String
  subtotal : ℚ
  tax_rate : ℚ
  tax_amount : ℚ
  discount_rate : ℚ
  discount_amount : ℚ
  tax_confirmed : Bool := false
  discount_confirmed : Bool := false
  processing_stage : String := "preparation"
deriving DecidableEq, Repr

/-- The shared key-value state the new_19 handlers read and write via
`ctx.get_shared_state` / `ctx.set_shared_state`, one field per key
(None = key not set; the checkpoint `ctx.set_state` snapshots carry no
data the handlers later read and are elided). -/
structure SharedState where
  current_invoice_id : Option String := none
  processing_stage : Option String := none
  tax_confirmed : Option Bool := none
  discount_confirmed : Option Bool := none
deriving DecidableEq, Repr

/-- The empty shared state at run start. -/
def SharedState.empty : SharedState := {}

/-- `InvoicePreparation.prepare`: compute totals, build the initial
`InvoiceState`, and record the invoice id and stage in shared state. -/
def prepare (cfg : InvoiceConfig) (invoice_data : InvoiceData)
    (sh : SharedState) : InvoiceState × SharedState :=
  let totals := calculate_invoice_totals invoice_data cfg
  let subtotal := invoice_data.subtotal
  let discount_amount := totals.high_value_discount + totals.preferred_discount
  let state : InvoiceState :=
    { invoice_id := invoice_data.invoice_id
      subtotal := subtotal
      tax_rate := cfg.tax_rate
      tax_amount := totals.tax
      discount_rate := if subtotal > 0 then discount_amount / subtotal else 0
      discount_amount := discount_amount
      processing_stage := "preparation" }
  (state,
   { sh with current_invoice_id := some invoice_data.invoice_id
             processing_stage := some "preparation" })

/-- `TaxConfirmationRequester.request_tax_confirmation`: build the request
from the state and record the stage.  (Quote characters inside the
Python option text are elided.) -/
def request_tax_confirmation (state : InvoiceState) (sh : SharedState) :
    TaxConfirmationRequest × SharedState :=
  ({ invoice_id := state.invoice_id
     question := "Confirm tax calculation for " ++ state.invoice_id ++ "?"
     current_value := state.tax_amount
     options := "Type yes to confirm or no to skip" },
   { sh with current_invoice_id := some state.invoice_id
             processing_stage := some "tax_confirmation" })

/-- `TaxConfirmationProcessor.process_tax_response`: rebuild the state
from the shared invoice id and the request's current_value; subtotal,
rates and discount are hardcoded in the source (6000, 0.10, 0.08, 480);
tax_confirmed is hardcoded True. -/
def process_tax_response (response : TaxConfirmationRequest)
    (sh : SharedState) : InvoiceState × SharedState :=
  let invoice_id := sh.current_invoice_id.getD "INV-001"
  let state : InvoiceState :=
    { invoice_id := invoice_id
      subtotal := 6000
      tax_rate := 1/10
      tax_amount := response.current_value
      discount_rate := 8/100
      discount_amount := 480
      tax_confirmed := true
      processing_stage := "tax_processed" }
  (state,
   { sh with processing_stage := some "tax_processed"
             tax_confirmed := some true })

/-- The two payload shapes `DiscountConfirmationRequester` can emit: a
`DiscountConfirmationRequest` when a discount applies, or the
`InvoiceState` itself when it does not. -/
inductive DiscountRequesterOutput
  | request (r : DiscountConfirmationRequest)
  | state (s : InvoiceState)
deriving DecidableEq, Repr

/-- `DiscountConfirmationRequester.request_discount_confirmation`: when
discount_amount > 0 emit a request and record the stage; otherwise mark
the state discount_confirmed / discount_skipped and emit the state. -/
def request_discount_confirmation (state : InvoiceState) (sh : SharedState) :
    DiscountRequesterOutput × SharedState :=
  if state.discount_amount > 0 then
    (.request
       { invoice_id := state.invoice_id
         question := "Apply discount to " ++ state.invoice_id ++ "?"
         current_value := state.discount_amount
         options := "Type yes to apply or no to skip" },
     { sh with processing_stage := some "discount_confirmation" })
  else
    (.state { state with discount_confirmed := true
                         processing_stage := "discount_skipped" },
     sh)

/-- `DiscountConfirmationProcessor.process_discount_response`: rebuild the
state from the shared invoice id and the request's current_value;
subtotal, tax and rates are hardcoded in the source (6000, 600, 0.10,
0.08); tax_confirmed and discount_confirmed are hardcoded True. -/
def process_discount_response (response : DiscountConfirmationRequest)
    (sh : SharedState) : InvoiceState × SharedState :=
  let invoice_id := sh.current_invoice_id.getD "INV-001"
  let state : InvoiceState :=
    { invoice_id := invoice_id
      subtotal := 6000
      tax_rate := 1/10
      tax_amount := 600
      discount_rate := 8/100
      discount_amount := response.current_value
      tax_confirmed := true
      discount_confirmed := true
      processing_stage := "discount_processed" }
  (state,
   { sh with processing_stage := some "discount_processed"
             discount_confirmed := some true })

/-- The payload types that occur on the discount edge of the new_19 graph. -/
inductive PayloadType
  | invoiceState | discountRequest
deriving DecidableEq, Repr

/-- The payload type of a `DiscountConfirmationRequester` output. -/
def DiscountRequesterOutput.payloadType : DiscountRequesterOutput → PayloadType
  | .request _ => .discountRequest
  | .state _ => .invoiceState

/-- The set of payload types `DiscountConfirmationProcessor` has a handler
for: its only `@handler` is `process_discount_response`, typed
`DiscountConfirmationRequest`. -/
def discount_processor_accepts (p : PayloadType) : Bool :=
  p == .discountRequest

/-- Run status of the spec's per-run state machine (spec 4.3),
Failed covering `UnroutableMessageError` and handler errors. -/
inductive RunStatus
  | Running | Paused | Completed | Failed
deriving DecidableEq, Repr

/-- Where a paused/running new_19 run stands in its chain. -/
inductive RunPhase
  | awaitingTax | awaitingDiscount | done
deriving DecidableEq, Repr

/-- The errors the resume boundary can surface (spec 7). -/
inductive WorkflowError
  | correlationMismatch
deriving DecidableEq, Repr

/-- Modelled from the spec: the per-run state the engine keeps for a
paused interactive run (the pause/resume machinery is not under src/ —
`run_interactive_workflow` only collects console input).  Spec 4.3: a
handler emitting a request payload pauses the run; the pending request is
buffered until a correlated response arrives; states emitted by the
confirmation processors are collected in emission order. -/
structure RunMachine where
  runId : String
  status : RunStatus
  phase : RunPhase
  shared : SharedState
  pending_tax : Option TaxConfirmationRequest
  pending_discount : Option DiscountConfirmationRequest
  emitted : List InvoiceState
deriving DecidableEq, Repr

/-- Modelled from the spec: starting a run (spec 4.3 `start`): run the
preparation and tax-request handlers, then enter Paused at the emitted
tax-confirmation request. -/
def start (runId : String) (cfg : InvoiceConfig) (inv : InvoiceData) :
    RunMachine :=
  let p := prepare cfg inv SharedState.empty
  let q := request_tax_confirmation p.1 p.2
  { runId := runId
    status := .Paused
    phase := .awaitingTax
    shared := q.2
    pending_tax := some q.1
    pending_discount := none
    emitted := [] }

/-- Modelled from the spec: resume correlation (spec 4.3 / 7): a response
is accepted only for a run that is Paused under the same run id; on
acceptance the run transitions back to Running.  A mismatch is rejected
without touching the RunState. -/
def acceptResume (m : RunMachine) (runId : String) : Option RunMachine :=
  if runId = m.runId ∧ m.status = .Paused then some { m with status := .Running }
  else none

/-- Modelled from the spec: after an accepted resume the engine delivers
the buffered request to the paused-at processor and drives the chain to
the next pause point, completion, or failure (an InvoiceState payload on
the discount edge is unroutable at the discount processor, spec 4.3
UnroutableMessageError).  The response text only confirms; the source
processors hardcode confirmation, so its value does not enter the data. -/
def stepRun (m : RunMachine) : RunMachine :=
  match m.phase, m.pending_tax, m.pending_discount with
  | .awaitingTax, some req, _ =>
      let t := process_tax_response req m.shared
      let d := request_discount_confirmation t.1 t.2
      match d.1 with
      | .request dreq =>
          { m with status := .Paused
                   phase := .awaitingDiscount
                   shared := d.2
                   pending_tax := none
                   pending_discount := some dreq
                   emitted := m.emitted ++ [t.1] }
      | .state _ =>
          { m with status := .Failed
                   shared := d.2
                   pending_tax := none
                   emitted := m.emitted ++ [t.1] }
  | .awaitingDiscount, _, some dreq =>
      let r := process_discount_response dreq m.shared
      { m with status := .Completed
               phase := .done
               shared := r.2
               pending_discount := none
               emitted := m.emitted ++ [r.1] }
  | _, _, _ => m

/-- Modelled from the spec: `resume(runId, response)` — reject a
mismatched correlation with CorrelationMismatchError leaving the run
state untouched, otherwise transition to Running and drive the chain. -/
def resume (m : RunMachine) (runId : String) :
    RunMachine × Option WorkflowError :=
  match acceptResume m runId with
  | none => (m, some .correlationMismatch)
  | some m' => (stepRun m', none)

/-- The two pause/resume cycles of one interactive run, resumed both
times with the correct run id. -/
def runWithPauses (runId : String) (cfg : InvoiceConfig)
    (inv : InvoiceData) : RunMachine :=
  (resume ((resume (start runId cfg inv) runId).1) runId).1

/-- Modelled from the spec: the uninterrupted reference run — the same
handler chain with the response supplied synchronously at the same
logical points, collecting the states emitted by the two confirmation
processors. -/
def runUninterrupted (cfg : InvoiceConfig) (inv : InvoiceData) :
    List InvoiceState :=
  let p := prepare cfg inv SharedState.empty
  let q := request_tax_confirmation p.1 p.2
  let t := process_tax_response q.1 q.2
  let d := request_discount_confirmation t.1 t.2
  match d.1 with
  | .request dreq => [t.1, (process_discount_response dreq d.2).1]
  | .state _ => [t.1]

end Interactive

namespace Fixtures

/-- A concrete invoice: amount 6000, preferred client (for witnesses). -/
def inv6000 : InvoiceUtils.InvoiceData :=
  { invoice_id := "INV-100"
    client_name := "Acme Corporation"
    client_email := "billing@acme.com"
    is_preferred := true
    item_description := "Consulting"
    quantity := 1
    unit_price := 6000
    date := "2024-12-01" }

/-- A filesystem with empty output and archive directories (for witnesses). -/
def emptyDirs : InvoiceUtils.WorkflowDirs :=
  { output := fun _ => false
    archive := fun _ => false }

/-- Concrete totals-task result for witnesses. -/
def t0 : Concurrent.TotalsResult :=
  { invoice_id := "INV-100"
    totals := InvoiceUtils.calculate_invoice_totals inv6000 InvoiceUtils.defaultConfig }

/-- Concrete client-task result for witnesses. -/
def c0 : Concurrent.ClientResult :=
  { invoice_id := "INV-100"
    client_info := Concurrent.prepare_client_info inv6000 }

/-- Concrete credit-task result for witnesses. -/
def cr0 : Concurrent.CreditResult :=
  { invoice_id := "INV-100"
    credit_check := Concurrent.check_credit inv6000 }

/-- Concrete dispatched data for witnesses. -/
def o0 : Concurrent.InvoiceWithConfig :=
  { invoice := inv6000, config := InvoiceUtils.defaultConfig }

/-- An arrival order with the client result overtaking the totals result. -/
def swappedArrival : List Concurrent.MergeMsg :=
  [.client c0, .totals t0, .credit cr0, .original o0]

/-- The per-merge-node upstream requirement of the concurrent workflow:
the merger must hear from the three parallel tasks and the dispatcher. -/
def reqMerger : String → List String := fun m =>
  if m = "merger" then
    ["dispatcher", "totals_calculator", "client_preparer", "credit_checker"]
  else []

/-- Two concurrently in-flight runs, each delivering all four upstreams to
the merger, interleaved (payloads are distinct markers). -/
def twoRunTrace : List (Engine.Delivery Nat) :=
  [⟨"run1", "merger", "dispatcher", 1⟩,
   ⟨"run2", "merger", "dispatcher", 5⟩,
   ⟨"run1", "merger", "totals_calculator", 2⟩,
   ⟨"run2", "merger", "client_preparer", 6⟩,
   ⟨"run2", "merger", "totals_calculator", 7⟩,
   ⟨"run1", "merger", "client_preparer", 3⟩,
   ⟨"run1", "merger", "credit_checker", 4⟩,
   ⟨"run2", "merger", "credit_checker", 8⟩]

/-- A concrete invoice state whose computed discount is exactly zero. -/
def stateNoDiscount : Interactive.InvoiceState :=
  { invoice_id := "INV-200"
    subtotal := 1000
    tax_rate := 1/10
    tax_amount := 100
    discount_rate := 0
    discount_amount := 0 }

end Fixtures

theorem Engine.count_true_switchFired {α β : Type}
    (cases : List (Engine.Case α β)) (msg : α) :
    (Engine.switchFired cases msg).count true = 1 := by
  induction cases with
  | nil => simp [Engine.switchFired, Engine.caseFlags]
  | cons c rest ih =>
      by_cases h : c.condition msg = true
      · simp [Engine.switchFired, Engine.caseFlags, h, List.count_append,
              List.count_cons, List.count_eq_zero]
      · have h' : c.condition msg = false := by
          cases hc : c.condition msg
          · rfl
          · exact absurd hc h
        simpa [Engine.switchFired, Engine.caseFlags, h', List.count_cons] using ih

/-- C8: calculate_invoice_totals returns a dictionary in which
total_discount is the sum of the high-value and preferred discounts
(the two stack additively), amount_after_discount = subtotal - total_discount,
tax = amount_after_discount * tax_rate, total = amount_after_discount + tax,
the high-value discount is subtotal * high_value_discount exactly when
subtotal >= high_value_threshold (0 otherwise), and the preferred discount is
subtotal * preferred_client_discount exactly when is_preferred is true
(0 otherwise). -/
theorem C8_calculate_invoice_totals_correct
    (inv : InvoiceUtils.InvoiceData) (cfg : InvoiceUtils.InvoiceConfig) :
    let r := InvoiceUtils.calculate_invoice_totals inv cfg
    r.subtotal = inv.subtotal ∧
    r.total_discount = r.high_value_discount + r.preferred_discount ∧
    r.amount_after_discount = r.subtotal - r.total_discount ∧
    r.tax = r.amount_after_discount * cfg.tax_rate ∧
    r.total = r.amount_after_discount + r.tax ∧
    r.high_value_discount =
      (if inv.subtotal ≥ cfg.high_value_threshold
       then inv.subtotal * cfg.high_value_discount else 0) ∧
    r.preferred_discount =
      (if inv.is_preferred
       then inv.subtotal * cfg.preferred_client_discount else 0) := by
  simp [InvoiceUtils.calculate_invoice_totals]

/-- C1: for every message leaving a switch-case group exactly one of the
M+1 downstream edges fires (first true predicate wins, default only when
none is true); and for an invoice with subtotal at or above the high-value
threshold, preferred flag true and no pre-existing output file, the loader
group fires only the HighValue edge: the fired-edge flags are
[archive: false, high_value: true, preferred: false, default: false], so
the Preferred edge does not also fire. -/
theorem C1_switch_case_high_value_only
    (fs : InvoiceUtils.WorkflowDirs) (inv : InvoiceUtils.InvoiceData)
    (cfg : InvoiceUtils.InvoiceConfig)
    (hhv : inv.subtotal ≥ cfg.high_value_threshold)
    (_hpref : inv.is_preferred = true)
    (hfile : fs.output (inv.invoice_id ++ ".txt") = false) :
    (∀ d : Branching.InvoiceDecision,
        (Engine.switchFired Branching.loader_cases d).count true = 1) ∧
    Engine.switchFired Branching.loader_cases
        (Branching.loaderDecision fs inv cfg) = [false, true, false, false] ∧
    Engine.switchTarget Branching.loader_cases Branching.loader_default
        (Branching.loaderDecision fs inv cfg)
      = Branching.BranchTarget.high_value_handler := by
  refine ⟨fun d => Engine.count_true_switchFired _ d, ?_, ?_⟩
  · have hd : (Branching.loaderDecision fs inv cfg).decision_type = "high_value" := by
      simp [Branching.loaderDecision, Branching.analyze_invoice_routing,
            InvoiceUtils.calculate_invoice_totals, hfile, hhv]
    simp [Engine.switchFired, Engine.caseFlags, Branching.loader_cases,
          Branching.is_archive_needed, Branching.is_high_value,
          Branching.is_preferred, hd]
  · have hd : (Branching.loaderDecision fs inv cfg).decision_type = "high_value" := by
      simp [Branching.loaderDecision, Branching.analyze_invoice_routing,
            InvoiceUtils.calculate_invoice_totals, hfile, hhv]
    simp [Engine.switchTarget, Branching.loader_cases, Branching.loader_default,
          Branching.is_archive_needed, Branching.is_high_value, hd]

theorem C1_switch_case_high_value_only_witness :
    (Fixtures.inv6000.subtotal ≥ InvoiceUtils.defaultConfig.high_value_threshold ∧
     Fixtures.inv6000.is_preferred = true ∧
     Fixtures.emptyDirs.output (Fixtures.inv6000.invoice_id ++ ".txt") = false) ∧
    ((∀ d : Branching.InvoiceDecision,
        (Engine.switchFired Branching.loader_cases d).count true = 1) ∧
     Engine.switchFired Branching.loader_cases
        (Branching.loaderDecision Fixtures.emptyDirs Fixtures.inv6000
          InvoiceUtils.defaultConfig) = [false, true, false, false] ∧
     Engine.switchTarget Branching.loader_cases Branching.loader_default
        (Branching.loaderDecision Fixtures.emptyDirs Fixtures.inv6000
          InvoiceUtils.defaultConfig)
       = Branching.BranchTarget.high_value_handler) := by
  have h1 : Fixtures.inv6000.subtotal ≥ InvoiceUtils.defaultConfig.high_value_threshold := by
    norm_num [Fixtures.inv6000, InvoiceUtils.defaultConfig,
              InvoiceUtils.InvoiceData.subtotal]
  exact ⟨⟨h1, rfl, rfl⟩,
    C1_switch_case_high_value_only Fixtures.emptyDirs Fixtures.inv6000
      InvoiceUtils.defaultConfig h1 rfl rfl⟩

/-- C10: after `ArchiveHandler.archive_old` completes (the existing output
file has been moved to the archive directory and no other actor recreates
it), re-running `analyze_invoice_routing` on the same invoice never yields
the decision type "archive_needed" again, and the second switch-case group
(cases high_value, preferred; default standard — no archive case) routes
the re-analyzed decision to one of its three handlers. -/
theorem C10_archive_entered_at_most_once
    (d : Branching.InvoiceDecision) (fs : InvoiceUtils.WorkflowDirs)
    (ts : String) :
    (Branching.archive_old d fs ts).2.decision_type ≠ "archive_needed" ∧
    Engine.switchTarget Branching.archive_cases Branching.archive_default
        (Branching.archive_old d fs ts).2
      ∈ [Branching.BranchTarget.high_value_handler,
         Branching.BranchTarget.preferred_handler,
         Branching.BranchTarget.standard_handler] := by
  have hout : (InvoiceUtils.archive_old_invoice d.invoice.invoice_id fs ts).1.output
      (d.invoice.invoice_id ++ ".txt") = false := by
    unfold InvoiceUtils.archive_old_invoice
    cases h : fs.output (d.invoice.invoice_id ++ ".txt") with
    | false => simp [h]
    | true => simp [h]
  unfold Branching.archive_old
  simp only [Branching.analyze_invoice_routing, hout]
  simp only [Bool.false_eq_true, if_false]
  split_ifs <;>
    simp [Engine.switchTarget, Branching.archive_cases, Branching.archive_default,
          Branching.is_high_value, Branching.is_preferred]

theorem Concurrent.runMerger_perm_runMessages
    (t : Concurrent.TotalsResult) (c : Concurrent.ClientResult)
    (cr : Concurrent.CreditResult) (o : Concurrent.InvoiceWithConfig)
    (ms : List Concurrent.MergeMsg)
    (h : ms.Perm (Concurrent.runMessages t c cr o)) :
    Concurrent.runMerger Concurrent.MergerState.empty ms
      = (Concurrent.MergerState.empty, [Concurrent.mergedOf t c cr o]) ∧
    (Concurrent.runMerger Concurrent.MergerState.empty (ms.take 1)).2 = [] ∧
    (Concurrent.runMerger Concurrent.MergerState.empty (ms.take 2)).2 = [] ∧
    (Concurrent.runMerger Concurrent.MergerState.empty (ms.take 3)).2 = [] := by
  have hlen : ms.length = 4 := by
    simpa [Concurrent.runMessages] using h.length_eq
  have hct : ms.count (Concurrent.MergeMsg.totals t) = 1 := by
    rw [h.count_eq]; simp [Concurrent.runMessages, List.count_cons]
  have hcc : ms.count (Concurrent.MergeMsg.client c) = 1 := by
    rw [h.count_eq]; simp [Concurrent.runMessages, List.count_cons]
  have hcr : ms.count (Concurrent.MergeMsg.credit cr) = 1 := by
    rw [h.count_eq]; simp [Concurrent.runMessages, List.count_cons]
  have hco : ms.count (Concurrent.MergeMsg.original o) = 1 := by
    rw [h.count_eq]; simp [Concurrent.runMessages, List.count_cons]
  rcases ms with _ | ⟨x1, _ | ⟨x2, _ | ⟨x3, _ | ⟨x4, _ | ⟨x5, tl⟩⟩⟩⟩⟩ <;>
    simp only [List.length_cons, List.length_nil] at hlen
  pick_goal 5
  · have h1 : x1 ∈ Concurrent.runMessages t c cr o := h.subset (by simp)
    have h2 : x2 ∈ Concurrent.runMessages t c cr o := h.subset (by simp)
    have h3 : x3 ∈ Concurrent.runMessages t c cr o := h.subset (by simp)
    have h4 : x4 ∈ Concurrent.runMessages t c cr o := h.subset (by simp)
    simp only [Concurrent.runMessages, List.mem_cons, List.mem_singleton,
      List.not_mem_nil, or_false] at h1 h2 h3 h4
    rcases h1 with rfl | rfl | rfl | rfl <;>
      rcases h2 with rfl | rfl | rfl | rfl <;>
        rcases h3 with rfl | rfl | rfl | rfl <;>
          rcases h4 with rfl | rfl | rfl | rfl <;>
            simp_all [Concurrent.runMerger, Concurrent.receive,
              Concurrent.check_and_merge, Concurrent.MergerState.empty,
              Concurrent.mergedOf, List.count_cons]
  all_goals omega

/-- C2: for every run of the concurrent fan-out/fan-in workflow — every
order in which the totals result, client result, credit result and the
original dispatched data reach the merger — the merging step fires exactly
once per run, and no strict prefix of the deliveries (i.e. before all four
declared upstream inputs have arrived) makes it fire. -/
theorem C2_merge_fires_exactly_once_after_all_inputs
    (t : Concurrent.TotalsResult) (c : Concurrent.ClientResult)
    (cr : Concurrent.CreditResult) (o : Concurrent.InvoiceWithConfig)
    (ms : List Concurrent.MergeMsg)
    (h : ms.Perm (Concurrent.runMessages t c cr o)) :
    (Concurrent.runMerger Concurrent.MergerState.empty ms).2.length = 1 ∧
    ∀ i < ms.length,
      (Concurrent.runMerger Concurrent.MergerState.empty (ms.take i)).2 = [] := by
  obtain ⟨hfull, h1, h2, h3⟩ := Concurrent.runMerger_perm_runMessages t c cr o ms h
  have hlen : ms.length = 4 := by
    simpa [Concurrent.runMessages] using h.length_eq
  refine ⟨by rw [hfull]; rfl, ?_⟩
  intro i hi
  rw [hlen] at hi
  interval_cases i
  · simp [Concurrent.runMerger]
  · exact h1
  · exact h2
  · exact h3

theorem C2_merge_fires_exactly_once_after_all_inputs_witness :
    (Fixtures.swappedArrival.Perm
       (Concurrent.runMessages Fixtures.t0 Fixtures.c0 Fixtures.cr0 Fixtures.o0)) ∧
    ((Concurrent.runMerger Concurrent.MergerState.empty Fixtures.swappedArrival).2.length = 1 ∧
     ∀ i < Fixtures.swappedArrival.length,
       (Concurrent.runMerger Concurrent.MergerState.empty
          (Fixtures.swappedArrival.take i)).2 = []) := by
  have hp : Fixtures.swappedArrival.Perm
      (Concurrent.runMessages Fixtures.t0 Fixtures.c0 Fixtures.cr0 Fixtures.o0) :=
    List.Perm.swap _ _ _
  exact ⟨hp, C2_merge_fires_exactly_once_after_all_inputs
    Fixtures.t0 Fixtures.c0 Fixtures.cr0 Fixtures.o0 Fixtures.swappedArrival hp⟩

/-- C3: for every permutation of the arrival order of the four upstream
inputs at the merge node, the merged result is the same — the single
emitted MergedResult is built from the set of delivered inputs (original
invoice and config, totals, client info, credit check) and does not depend
on the arrival sequence. -/
theorem C3_merge_result_arrival_order_invariant
    (t : Concurrent.TotalsResult) (c : Concurrent.ClientResult)
    (cr : Concurrent.CreditResult) (o : Concurrent.InvoiceWithConfig)
    (ms : List Concurrent.MergeMsg)
    (h : ms.Perm (Concurrent.runMessages t c cr o)) :
    (Concurrent.runMerger Concurrent.MergerState.empty ms).2
      = [Concurrent.mergedOf t c cr o] := by
  have hfull := (Concurrent.runMerger_perm_runMessages t c cr o ms h).1
  rw [hfull]

theorem C3_merge_result_arrival_order_invariant_witness :
    (Fixtures.swappedArrival.Perm
       (Concurrent.runMessages Fixtures.t0 Fixtures.c0 Fixtures.cr0 Fixtures.o0)) ∧
    (Concurrent.runMerger Concurrent.MergerState.empty Fixtures.swappedArrival).2
      = [Concurrent.mergedOf Fixtures.t0 Fixtures.c0 Fixtures.cr0 Fixtures.o0] := by
  have hp : Fixtures.swappedArrival.Perm
      (Concurrent.runMessages Fixtures.t0 Fixtures.c0 Fixtures.cr0 Fixtures.o0) :=
    List.Perm.swap _ _ _
  exact ⟨hp, C3_merge_result_arrival_order_invariant
    Fixtures.t0 Fixtures.c0 Fixtures.cr0 Fixtures.o0 Fixtures.swappedArrival hp⟩

/-- C7 (counterexample to the claim as stated): `Dispatcher.dispatch`
does write ambient module-global state to record which invoice the run
selected — after one concrete handler invocation the module global
`selected_invoice_id` has changed. -/
theorem C7_counterexample_dispatch_writes_global :
    (Concurrent.dispatch { selected_invoice_id := none } [Fixtures.inv6000]
        InvoiceUtils.defaultConfig "INV-100").1
      ≠ ({ selected_invoice_id := none } : Concurrent.ModuleGlobals) := by
  simp [Concurrent.dispatch]

/-- C7 (amended): the selection IS threaded through the emitted
`InvoiceWithConfig` message, but the handler also records it in the module
global `selected_invoice_id`; the written global is independent of its
previous value, so concurrent runs in one process would overwrite each
other through this shared global. -/
theorem C7_amended_selection_in_message_and_global
    (g g' : Concurrent.ModuleGlobals) (invs : List InvoiceUtils.InvoiceData)
    (cfg : InvoiceUtils.InvoiceConfig) (choice : String) :
    (Concurrent.dispatch g invs cfg choice).1.selected_invoice_id = some choice ∧
    (Concurrent.dispatch g invs cfg choice).1
      = (Concurrent.dispatch g' invs cfg choice).1 ∧
    (Concurrent.dispatch g invs cfg choice).2.elim True
      (fun m => m.config = cfg ∧ m.invoice.invoice_id = choice) := by
  refine ⟨rfl, rfl, ?_⟩
  simp only [Concurrent.dispatch]
  cases hf : invs.find? (fun inv => inv.invoice_id == choice) with
  | none => simp
  | some a =>
      have ha := List.find?_some hf
      simp only [beq_iff_eq] at ha
      simp [ha]

/-- C5: resuming a paused run with a correlated response produces the same
downstream messages as an uninterrupted run of the same chain with an
equivalent response supplied synchronously at the same logical point: the
states emitted by the two confirmation processors are identical — in
particular their invoice id, subtotal, tax amount and discount amount. -/
theorem C5_resume_equals_uninterrupted
    (runId : String) (cfg : InvoiceUtils.InvoiceConfig)
    (inv : InvoiceUtils.InvoiceData) :
    (Interactive.runWithPauses runId cfg inv).emitted
      = Interactive.runUninterrupted cfg inv ∧
    ((Interactive.runWithPauses runId cfg inv).emitted.map
        (fun s => (s.invoice_id, s.subtotal, s.tax_amount, s.discount_amount)))
      = ((Interactive.runUninterrupted cfg inv).map
        (fun s => (s.invoice_id, s.subtotal, s.tax_amount, s.discount_amount))) := by
  have h480 : (0 : ℚ) < 480 := by norm_num
  have he : (Interactive.runWithPauses runId cfg inv).emitted
      = Interactive.runUninterrupted cfg inv := by
    simp [Interactive.runWithPauses, Interactive.runUninterrupted,
          Interactive.start, Interactive.resume, Interactive.acceptResume,
          Interactive.stepRun, Interactive.request_discount_confirmation,
          Interactive.process_tax_response, Interactive.process_discount_response,
          Interactive.prepare, Interactive.request_tax_confirmation,
          gt_iff_lt, h480]
  exact ⟨he, by rw [he]⟩

/-- C6: resuming with a run id that matches no paused run fails with
CorrelationMismatchError and returns the paused RunState unchanged;
resuming with the correct run id is accepted, transitions the run back to
Running, and driving both pauses with correct correlation completes the
remaining chain. -/
theorem C6_resume_correlation
    (runId wrongId : String) (cfg : InvoiceUtils.InvoiceConfig)
    (inv : InvoiceUtils.InvoiceData) (hw : wrongId ≠ runId) :
    Interactive.resume (Interactive.start runId cfg inv) wrongId
      = (Interactive.start runId cfg inv,
         some Interactive.WorkflowError.correlationMismatch) ∧
    Interactive.acceptResume (Interactive.start runId cfg inv) runId
      = some { Interactive.start runId cfg inv with
                 status := Interactive.RunStatus.Running } ∧
    (Interactive.resume (Interactive.start runId cfg inv) runId).2 = none ∧
    (Interactive.runWithPauses runId cfg inv).status
      = Interactive.RunStatus.Completed := by
  have h480 : (0 : ℚ) < 480 := by norm_num
  refine ⟨?_, ?_, ?_, ?_⟩
  · simp [Interactive.resume, Interactive.acceptResume, Interactive.start, hw]
  · simp [Interactive.acceptResume, Interactive.start]
  · simp [Interactive.resume, Interactive.acceptResume, Interactive.start]
  · simp [Interactive.runWithPauses, Interactive.start, Interactive.resume,
          Interactive.acceptResume, Interactive.stepRun,
          Interactive.request_discount_confirmation,
          Interactive.process_tax_response, Interactive.process_discount_response,
          Interactive.prepare, Interactive.request_tax_confirmation,
          gt_iff_lt, h480]

theorem C6_resume_correlation_witness :
    ("other-run" ≠ "run-1") ∧
    (Interactive.resume
        (Interactive.start "run-1" InvoiceUtils.defaultConfig Fixtures.inv6000)
        "other-run"
      = (Interactive.start "run-1" InvoiceUtils.defaultConfig Fixtures.inv6000,
         some Interactive.WorkflowError.correlationMismatch) ∧
     Interactive.acceptResume
        (Interactive.start "run-1" InvoiceUtils.defaultConfig Fixtures.inv6000)
        "run-1"
      = some { Interactive.start "run-1" InvoiceUtils.defaultConfig Fixtures.inv6000 with
                 status := Interactive.RunStatus.Running } ∧
     (Interactive.resume
        (Interactive.start "run-1" InvoiceUtils.defaultConfig Fixtures.inv6000)
        "run-1").2 = none ∧
     (Interactive.runWithPauses "run-1" InvoiceUtils.defaultConfig
        Fixtures.inv6000).status = Interactive.RunStatus.Completed) := by
  have hw : ("other-run" : String) ≠ "run-1" := by decide
  exact ⟨hw, C6_resume_correlation "run-1" "other-run"
    InvoiceUtils.defaultConfig Fixtures.inv6000 hw⟩

/-- C9: when the computed discount amount is exactly zero, the
discount-confirmation requester emits an InvoiceState payload (marked
discount_confirmed, stage discount_skipped) instead of a
DiscountConfirmationRequest, and the discount-confirmation processor has
no handler accepting an InvoiceState payload, so the emitted message is
unroutable at that node. -/
theorem C9_zero_discount_emits_unroutable_state
    (state : Interactive.InvoiceState) (sh : Interactive.SharedState)
    (h : state.discount_amount = 0) :
    (Interactive.request_discount_confirmation state sh).1
      = .state { state with discount_confirmed := true
                            processing_stage := "discount_skipped" } ∧
    Interactive.discount_processor_accepts
        ((Interactive.request_discount_confirmation state sh).1).payloadType
      = false := by
  have hng : ¬ (state.discount_amount > 0) := by rw [h]; norm_num
  constructor <;>
    simp [Interactive.request_discount_confirmation, hng,
          Interactive.DiscountRequesterOutput.payloadType,
          Interactive.discount_processor_accepts]

theorem C9_zero_discount_emits_unroutable_state_witness :
    (Fixtures.stateNoDiscount.discount_amount = 0) ∧
    ((Interactive.request_discount_confirmation Fixtures.stateNoDiscount
        Interactive.SharedState.empty).1
      = .state { Fixtures.stateNoDiscount with
                   discount_confirmed := true
                   processing_stage := "discount_skipped" } ∧
     Interactive.discount_processor_accepts
        ((Interactive.request_discount_confirmation Fixtures.stateNoDiscount
            Interactive.SharedState.empty).1).payloadType
      = false) :=
  ⟨rfl, C9_zero_discount_emits_unroutable_state Fixtures.stateNoDiscount
    Interactive.SharedState.empty rfl⟩

theorem Engine.deliver_required {μ : Type} (b : Engine.FanInBarrier μ)
    (d : Engine.Delivery μ) : (b.deliver d).1.required = b.required := by
  simp only [Engine.FanInBarrier.deliver]
  split <;> rfl

theorem Engine.deliver_buffers_ne {μ : Type} (b : Engine.FanInBarrier μ)
    (d : Engine.Delivery μ) (k' : String × String)
    (hk : k' ≠ (d.runId, d.mergeNode)) :
    (b.deliver d).1.buffers k' = b.buffers k' := by
  simp only [Engine.FanInBarrier.deliver]
  split <;> simp [hk]

theorem Engine.deliver_fire_spec {μ : Type} (b : Engine.FanInBarrier μ)
    (d : Engine.Delivery μ) (e : Engine.FireEvent μ)
    (he : (b.deliver d).2 = some e) :
    e.key = (d.runId, d.mergeNode) ∧
    e.inputs = b.buffers (d.runId, d.mergeNode) ++ [(d.upstream, d.payload)] := by
  simp only [Engine.FanInBarrier.deliver] at he
  split at he
  · simp only [Option.some.injEq] at he
    subst he
    exact ⟨rfl, rfl⟩
  · simp at he

theorem Engine.deliver_congr {μ : Type} (b1 b2 : Engine.FanInBarrier μ)
    (d : Engine.Delivery μ)
    (hreq : b1.required d.mergeNode = b2.required d.mergeNode)
    (hbuf : b1.buffers (d.runId, d.mergeNode) = b2.buffers (d.runId, d.mergeNode)) :
    (b1.deliver d).2 = (b2.deliver d).2 ∧
    (b1.deliver d).1.buffers (d.runId, d.mergeNode)
      = (b2.deliver d).1.buffers (d.runId, d.mergeNode) := by
  simp only [Engine.FanInBarrier.deliver]
  rw [hbuf, hreq]
  split <;> simp

theorem Engine.runBarrier_congr_key {μ : Type} (tr : List (Engine.Delivery μ))
    (b1 b2 : Engine.FanInBarrier μ) (k : String × String)
    (hall : ∀ d ∈ tr, (d.runId, d.mergeNode) = k)
    (hreq : b1.required = b2.required)
    (hbuf : b1.buffers k = b2.buffers k) :
    (Engine.runBarrier b1 tr).2 = (Engine.runBarrier b2 tr).2 ∧
    (Engine.runBarrier b1 tr).1.buffers k
      = (Engine.runBarrier b2 tr).1.buffers k := by
  induction tr generalizing b1 b2 with
  | nil => exact ⟨rfl, hbuf⟩
  | cons d rest ih =>
      have hd : (d.runId, d.mergeNode) = k := hall d (by simp)
      have hrr : b1.required d.mergeNode = b2.required d.mergeNode := by rw [hreq]
      have hbb : b1.buffers (d.runId, d.mergeNode)
          = b2.buffers (d.runId, d.mergeNode) := by rw [hd, hbuf]
      obtain ⟨hc2, hc1⟩ := Engine.deliver_congr b1 b2 d hrr hbb
      have hreq' : (b1.deliver d).1.required = (b2.deliver d).1.required := by
        rw [Engine.deliver_required, Engine.deliver_required, hreq]
      have hbuf' : (b1.deliver d).1.buffers k = (b2.deliver d).1.buffers k := by
        rw [← hd]; exact hc1
      obtain ⟨ih1, ih2⟩ := ih (b1.deliver d).1 (b2.deliver d).1
        (fun d' hd' => hall d' (by simp [hd'])) hreq' hbuf'
      constructor
      · simp only [Engine.runBarrier]
        rw [hc2, ih1]
      · simp only [Engine.runBarrier]
        exact ih2

theorem Engine.runBarrier_localize {μ : Type} (tr : List (Engine.Delivery μ))
    (b : Engine.FanInBarrier μ) (k : String × String) :
    Engine.keyFires (Engine.runBarrier b tr).2 k
      = Engine.keyFires (Engine.runBarrier b (Engine.keyTrace tr k)).2 k ∧
    (Engine.runBarrier b tr).1.buffers k
      = (Engine.runBarrier b (Engine.keyTrace tr k)).1.buffers k := by
  induction tr generalizing b with
  | nil => exact ⟨rfl, rfl⟩
  | cons d rest ih =>
      by_cases hd : (d.runId, d.mergeNode) = k
      · have hkt : Engine.keyTrace (d :: rest) k = d :: Engine.keyTrace rest k := by
          simp [Engine.keyTrace, hd]
        rw [hkt]
        obtain ⟨ih1, ih2⟩ := ih (b.deliver d).1
        constructor
        · simp only [Engine.runBarrier, Engine.keyFires, List.filter_append] at ih1 ⊢
          rw [ih1]
        · simp only [Engine.runBarrier]
          exact ih2
      · have hkt : Engine.keyTrace (d :: rest) k = Engine.keyTrace rest k := by
          simp [Engine.keyTrace, hd]
        rw [hkt]
        obtain ⟨ih1, ih2⟩ := ih (b.deliver d).1
        have hallk : ∀ d' ∈ Engine.keyTrace rest k, (d'.runId, d'.mergeNode) = k := by
          intro d' hd'
          have hp := List.of_mem_filter hd'
          simpa using hp
        obtain ⟨hcg1, hcg2⟩ := Engine.runBarrier_congr_key (Engine.keyTrace rest k)
          (b.deliver d).1 b k hallk (Engine.deliver_required b d)
          (Engine.deliver_buffers_ne b d k (Ne.symm hd))
        have hfe : ((b.deliver d).2.toList.filter (fun e => decide (e.key = k))) = [] := by
          cases hse : (b.deliver d).2 with
          | none => simp
          | some e =>
              have hek := (Engine.deliver_fire_spec b d e hse).1
              simp [hek, hd]
        constructor
        · simp only [Engine.runBarrier, Engine.keyFires, List.filter_append]
          rw [hfe, List.nil_append]
          simp only [Engine.keyFires] at ih1
          rw [ih1, hcg1]
        · simp only [Engine.runBarrier]
          rw [ih2, hcg2]

theorem Engine.runBarrier_single_key {μ : Type} (tr : List (Engine.Delivery μ))
    (b : Engine.FanInBarrier μ) (r n : String)
    (hall : ∀ d ∈ tr, d.runId = r ∧ d.mergeNode = n)
    (hreq : (b.required n).Nodup)
    (hperm : (((b.buffers (r, n)).map Prod.fst)
        ++ tr.map Engine.Delivery.upstream).Perm (b.required n))
    (hne : tr ≠ []) :
    (Engine.runBarrier b tr).2.length = 1 ∧
    (∀ e ∈ (Engine.runBarrier b tr).2, e.key = (r, n)) ∧
    (Engine.runBarrier b tr).1.buffers (r, n) = [] := by
  induction tr generalizing b with
  | nil => exact absurd rfl hne
  | cons d rest ih =>
      obtain ⟨dr, dn, du, dp⟩ := d
      obtain ⟨hdr, hdn⟩ := hall ⟨dr, dn, du, dp⟩ (by simp)
      have hdr' : dr = r := hdr
      have hdn' : dn = n := hdn
      subst dr
      subst dn
      by_cases hrest : rest = []
      · subst hrest
        have hcond : ((b.required n).all
            (fun u => (((b.buffers (r, n)) ++ [(du, dp)]).map Prod.fst).contains u))
            = true := by
          rw [List.all_eq_true]
          intro u hu
          have hx : u ∈ (b.buffers (r, n)).map Prod.fst ++ [du] := by
            have hx0 := hperm.symm.subset hu
            simpa using hx0
          simpa using hx
        have hstep : (b.deliver ⟨r, n, du, dp⟩)
            = ({ b with buffers := fun k => if k = (r, n) then [] else b.buffers k },
               some { key := (r, n), inputs := b.buffers (r, n) ++ [(du, dp)] }) := by
          simp only [Engine.FanInBarrier.deliver]
          rw [hcond]
          simp
        have hcons : Engine.runBarrier b [(⟨r, n, du, dp⟩ : Engine.Delivery μ)]
            = ((Engine.runBarrier (b.deliver ⟨r, n, du, dp⟩).1 []).1,
               (b.deliver ⟨r, n, du, dp⟩).2.toList
                 ++ (Engine.runBarrier (b.deliver ⟨r, n, du, dp⟩).1 []).2) :=
          rfl
        refine ⟨?_, ?_, ?_⟩ <;> rw [hcons, hstep] <;> simp [Engine.runBarrier]
      · obtain ⟨d2, rest', rfl⟩ := List.exists_cons_of_ne_nil hrest
        have hperm' : ((b.buffers (r, n)).map Prod.fst
            ++ (du :: d2.upstream :: rest'.map Engine.Delivery.upstream)).Perm
            (b.required n) := by
          simpa using hperm
        have hnd : ((b.buffers (r, n)).map Prod.fst
            ++ (du :: d2.upstream :: rest'.map Engine.Delivery.upstream)).Nodup :=
          (hperm'.nodup_iff).mpr hreq
        rw [List.nodup_append] at hnd
        obtain ⟨hnd1, hnd2, hdisj⟩ := hnd
        have hne_du : d2.upstream ≠ du := by
          have hdu := (List.nodup_cons.mp hnd2).1
          intro h
          exact hdu (by rw [← h]; simp)
        have hnotin : d2.upstream ∉ (b.buffers (r, n)).map Prod.fst := by
          intro h
          exact absurd (by simp) (hdisj h)
        have hu2req : d2.upstream ∈ b.required n := hperm'.subset (by simp)
        have hcond : ((b.required n).all
            (fun u => (((b.buffers (r, n)) ++ [(du, dp)]).map Prod.fst).contains u))
            = false := by
          rcases Bool.eq_false_or_eq_true ((b.required n).all
            (fun u => (((b.buffers (r, n)) ++ [(du, dp)]).map Prod.fst).contains u))
            with h | h
          · exfalso
            have hx := List.all_eq_true.mp h d2.upstream hu2req
            have hmem2 : d2.upstream ∈ ((b.buffers (r, n)) ++ [(du, dp)]).map Prod.fst := by
              simpa using hx
            rw [List.map_append] at hmem2
            rcases List.mem_append.mp hmem2 with hmm | hmm
            · exact hnotin hmm
            · exact hne_du (by simpa using hmm)
          · exact h
        have hstep : (b.deliver ⟨r, n, du, dp⟩)
            = ({ b with buffers := fun k => if k = (r, n) then
                  b.buffers (r, n) ++ [(du, dp)] else b.buffers k }, none) := by
          simp only [Engine.FanInBarrier.deliver]
          rw [hcond]
          simp
        obtain ⟨ih1, ih2, ih3⟩ := ih
          ({ b with buffers := fun k => if k = (r, n) then
              b.buffers (r, n) ++ [(du, dp)] else b.buffers k })
          (fun d' hd' => hall d' (by simp [hd']))
          hreq
          (by simpa [List.append_assoc] using hperm')
          (List.cons_ne_nil d2 rest')
        have hcons : Engine.runBarrier b (⟨r, n, du, dp⟩ :: d2 :: rest')
            = ((Engine.runBarrier (b.deliver ⟨r, n, du, dp⟩).1 (d2 :: rest')).1,
               (b.deliver ⟨r, n, du, dp⟩).2.toList
                 ++ (Engine.runBarrier (b.deliver ⟨r, n, du, dp⟩).1 (d2 :: rest')).2) :=
          rfl
        have hrun : Engine.runBarrier b (⟨r, n, du, dp⟩ :: d2 :: rest')
            = Engine.runBarrier
                ({ b with buffers := fun k => if k = (r, n) then
                    b.buffers (r, n) ++ [(du, dp)] else b.buffers k })
                (d2 :: rest') := by
          rw [hcons, hstep]
          simp
        refine ⟨?_, ?_, ?_⟩ <;> rw [hrun]
        · exact ih1
        · exact ih2
        · exact ih3

/-- C4: the fan-in barrier buffers per (run id, merge-node id) key: a
delivery for one run never changes another key's buffer, and a firing
consumes exactly the firing key's own buffered messages (never another
run's); and when each of two concurrently in-flight runs delivers the
required upstream set exactly once (in any interleaving), each run's
barrier is released exactly once and its buffer is reset afterwards. -/
theorem C4_barrier_keyed_by_run_and_node {μ : Type}
    (req : String → List String) (tr : List (Engine.Delivery μ))
    (r1 r2 n : String)
    (hreq : (req n).Nodup) (hne : req n ≠ [])
    (h1 : ((Engine.keyTrace tr (r1, n)).map Engine.Delivery.upstream).Perm (req n))
    (h2 : ((Engine.keyTrace tr (r2, n)).map Engine.Delivery.upstream).Perm (req n)) :
    (∀ (b : Engine.FanInBarrier μ) (d : Engine.Delivery μ)
       (e : Engine.FireEvent μ), (b.deliver d).2 = some e →
        e.key = (d.runId, d.mergeNode) ∧
        e.inputs = b.buffers (d.runId, d.mergeNode) ++ [(d.upstream, d.payload)]) ∧
    (∀ (b : Engine.FanInBarrier μ) (d : Engine.Delivery μ)
       (k' : String × String), k' ≠ (d.runId, d.mergeNode) →
        (b.deliver d).1.buffers k' = b.buffers k') ∧
    (Engine.keyFires
        (Engine.runBarrier (Engine.FanInBarrier.init req) tr).2 (r1, n)).length = 1 ∧
    (Engine.keyFires
        (Engine.runBarrier (Engine.FanInBarrier.init req) tr).2 (r2, n)).length = 1 ∧
    (Engine.runBarrier (Engine.FanInBarrier.init req) tr).1.buffers (r1, n) = [] ∧
    (Engine.runBarrier (Engine.FanInBarrier.init req) tr).1.buffers (r2, n) = [] := by
  have key_part : ∀ r : String,
      ((Engine.keyTrace tr (r, n)).map Engine.Delivery.upstream).Perm (req n) →
      (Engine.keyFires
          (Engine.runBarrier (Engine.FanInBarrier.init req) tr).2 (r, n)).length = 1 ∧
      (Engine.runBarrier (Engine.FanInBarrier.init req) tr).1.buffers (r, n) = [] := by
    intro r hp
    obtain ⟨hl1, hl2⟩ :=
      Engine.runBarrier_localize tr (Engine.FanInBarrier.init req) (r, n)
    have hall : ∀ d ∈ Engine.keyTrace tr (r, n), d.runId = r ∧ d.mergeNode = n := by
      intro d hd
      have hf := List.of_mem_filter hd
      have hkd : (d.runId, d.mergeNode) = (r, n) := by simpa using hf
      exact ⟨congrArg Prod.fst hkd, congrArg Prod.snd hkd⟩
    have hne' : Engine.keyTrace tr (r, n) ≠ [] := by
      intro h0
      rw [h0] at hp
      simp only [List.map_nil, List.nil_perm] at hp
      exact hne hp
    obtain ⟨hs1, hs2, hs3⟩ :=
      Engine.runBarrier_single_key (Engine.keyTrace tr (r, n))
        (Engine.FanInBarrier.init req) r n hall hreq
        (by simpa [Engine.FanInBarrier.init] using hp) hne'
    constructor
    · rw [hl1]
      have hkeep : Engine.keyFires
          (Engine.runBarrier (Engine.FanInBarrier.init req)
            (Engine.keyTrace tr (r, n))).2 (r, n)
          = (Engine.runBarrier (Engine.FanInBarrier.init req)
              (Engine.keyTrace tr (r, n))).2 := by
        apply List.filter_eq_self.mpr
        intro e he
        simpa using hs2 e he
      rw [hkeep, hs1]
    · rw [hl2]
      exact hs3
  exact ⟨fun b d e he => Engine.deliver_fire_spec b d e he,
    fun b d k' hk => Engine.deliver_buffers_ne b d k' hk,
    (key_part r1 h1).1, (key_part r2 h2).1,
    (key_part r1 h1).2, (key_part r2 h2).2⟩

theorem C4_barrier_keyed_by_run_and_node_witness :
    ((Fixtures.reqMerger "merger").Nodup ∧
     Fixtures.reqMerger "merger" ≠ [] ∧
     ((Engine.keyTrace Fixtures.twoRunTrace ("run1", "merger")).map
        Engine.Delivery.upstream).Perm (Fixtures.reqMerger "merger") ∧
     ((Engine.keyTrace Fixtures.twoRunTrace ("run2", "merger")).map
        Engine.Delivery.upstream).Perm (Fixtures.reqMerger "merger")) ∧
    ((Engine.keyFires
        (Engine.runBarrier (Engine.FanInBarrier.init Fixtures.reqMerger)
          Fixtures.twoRunTrace).2 ("run1", "merger")).length = 1 ∧
     (Engine.keyFires
        (Engine.runBarrier (Engine.FanInBarrier.init Fixtures.reqMerger)
          Fixtures.twoRunTrace).2 ("run2", "merger")).length = 1 ∧
     (Engine.runBarrier (Engine.FanInBarrier.init Fixtures.reqMerger)
        Fixtures.twoRunTrace).1.buffers ("run1", "merger") = [] ∧
     (Engine.runBarrier (Engine.FanInBarrier.init Fixtures.reqMerger)
        Fixtures.twoRunTrace).1.buffers ("run2", "merger") = []) := by
  have hreq : (Fixtures.reqMerger "merger").Nodup := by decide
  have hne : Fixtures.reqMerger "merger" ≠ [] := by decide
  have h1 : ((Engine.keyTrace Fixtures.twoRunTrace ("run1", "merger")).map
      Engine.Delivery.upstream).Perm (Fixtures.reqMerger "merger") := by decide
  have h2 : ((Engine.keyTrace Fixtures.twoRunTrace ("run2", "merger")).map
      Engine.Delivery.upstream).Perm (Fixtures.reqMerger "merger") := by decide
  obtain ⟨_, _, hc3, hc4, hc5, hc6⟩ :=
    C4_barrier_keyed_by_run_and_node Fixtures.reqMerger Fixtures.twoRunTrace
      "run1" "run2" "merger" hreq hne h1 h2
  exact ⟨⟨hreq, hne, h1, h2⟩, hc3, hc4, hc5, hc6⟩
